import Mathlib

/-!
Verification of the execution-context core and the external source adapter
of the `elfo` actor runtime, against `src/elfo-core/src/scope.rs` and
`src/elfo-core/src/stream.rs`.

Shallow embedding conventions:
* machine state threaded explicitly (the `Mutex`-protected adapter state is a
  plain value, since every operation holds the lock for the whole body);
* `Cell<TraceId>` interior mutability is modelled by a heap of trace cells
  (`TraceHeap`) addressed by `TraceRef`; cloning a `Scope` allocates a fresh
  cell holding the current value, exactly as `Cell::clone` does;
* `Arc<AtomicPermissions>` is modelled by an index (`PermRef`) into a heap of
  permission stores (`PermHeap`); cloning a `Scope` copies the index, so both
  copies read the same store;
* panicking free functions return `Outcome`, where `Outcome.panicked` stands
  for an aborted unit of work.
-/

set_option autoImplicit false

namespace Elfo

/-- Modelled from the spec: `addr.rs` is not among the inspected sources.
An opaque copyable identifier; `NULL` is the reserved sentinel meaning
"no sender". -/
structure Addr where
  raw : Nat
deriving DecidableEq, Repr

def Addr.NULL : Addr := ⟨0⟩

/-- Modelled from the spec: `envelope.rs` is not among the inspected sources.
The message-kind tag distinguishes ordinary messages from
requests-with-reply-token; both carry the originating sender address. -/
inductive MessageKind where
  | Regular (sender : Addr)
  | Request (sender : Addr) (token : Nat)
deriving DecidableEq, Repr

/-- Modelled from the spec: `envelope.rs` is not among the inspected sources.
A generic container holding a typed message payload plus its kind tag. -/
structure Envelope (α : Type) where
  message : α
  kind : MessageKind
deriving DecidableEq, Repr

def Envelope.new {α : Type} (message : α) (kind : MessageKind) : Envelope α :=
  ⟨message, kind⟩

/-- `Envelope::upcast` erases the concrete message type in Rust; in the
embedding the envelope stays typed, so it is the identity. -/
def Envelope.upcast {α : Type} (e : Envelope α) : Envelope α := e

/-- `std::task::Poll`. -/
inductive Poll (α : Type) where
  | Ready (a : α)
  | Pending
deriving DecidableEq, Repr

/-- A `futures::Stream` with state type `σ` is modelled by explicit state
passing: polling returns `Poll (Option α)` and the successor stream state
(the in-place mutation performed through `Pin<&mut S>`). -/
def PollNext (α σ : Type) : Type := σ → Poll (Option α) × σ

/-- `StreamState<S>` from `stream.rs`: either an active underlying sequence
or closed. `Pin<Box<S>>` adds nothing to the embedding. -/
inductive StreamState (σ : Type) where
  | Active (s : σ)
  | Closed
deriving DecidableEq, Repr

namespace Stream

/-- `Stream::new`. -/
def new {σ : Type} (stream : σ) : StreamState σ :=
  StreamState.Active stream

/-- `Stream::set`: unconditionally installs a new active sequence. -/
def set {σ : Type} (stream : σ) (_st : StreamState σ) : StreamState σ :=
  StreamState.Active stream

/-- `Stream::replace`: swaps in a new active sequence, returning the previous
sequence when there was one. -/
def replace {σ : Type} (stream : σ) (st : StreamState σ) :
    Option σ × StreamState σ :=
  match st with
  | StreamState.Active old => (some old, StreamState.Active stream)
  | StreamState.Closed => (none, StreamState.Active stream)

/-- `Stream::close`: forces the state to `Closed` and reports whether a
transition actually happened. -/
def close {σ : Type} (st : StreamState σ) : Bool × StreamState σ :=
  match st with
  | StreamState.Active _ => (true, StreamState.Closed)
  | StreamState.Closed => (false, StreamState.Closed)

/-- `<Stream as Source>::poll_recv`, parametric in the underlying sequence's
poll function. A closed adapter returns `Pending`; an active one delegates,
wrapping items as regular envelopes with the `NULL` sender and closing on
exhaustion. -/
def poll_recv {α σ : Type} (pn : PollNext α σ) (st : StreamState σ) :
    Poll (Option (Envelope α)) × StreamState σ :=
  match st with
  | StreamState.Closed => (Poll.Pending, StreamState.Closed)
  | StreamState.Active s =>
    match pn s with
    | (Poll.Ready (some message), s') =>
        (Poll.Ready (some ((Envelope.new message
            (MessageKind.Regular Addr.NULL)).upcast)),
         StreamState.Active s')
    | (Poll.Ready none, _s') => (Poll.Ready none, StreamState.Closed)
    | (Poll.Pending, s') => (Poll.Pending, StreamState.Active s')

/-- The result of the `(n+1)`-st consecutive call to `poll_recv` (together
with the state it leaves behind), starting from `st`. -/
def pollN {α σ : Type} (pn : PollNext α σ) :
    Nat → StreamState σ → Poll (Option (Envelope α)) × StreamState σ
  | 0, st => poll_recv pn st
  | n + 1, st => pollN pn n (poll_recv pn st).2

end Stream

/-- The poll function of a finite in-memory sequence (as produced by
`futures::stream::iter`): yields the elements in order, then reports
exhaustion. -/
def listPollNext {α : Type} : PollNext α (List α) :=
  fun l =>
    match l with
    | x :: xs => (Poll.Ready (some x), xs)
    | [] => (Poll.Ready none, [])

/-! ## Scope -/

/-- Modelled from the spec: `trace_id.rs` is not among the inspected sources.
A small copyable correlation token. -/
abbrev TraceId := Nat

/-- Modelled from the spec: `trace_id::generate` is not among the inspected
sources; it produces a fresh token per logical unit of work. The generator
state is elided — no claim depends on freshness. -/
def trace_id.generate : TraceId := 0

/-- Modelled from the spec: `object.rs` is not among the inspected sources.
Immutable static identity of an actor (group name, optional key). -/
structure ObjectMeta where
  group : String
  key : Option String
deriving DecidableEq, Repr

/-- Modelled from the spec: `permissions.rs` is not among the inspected
sources. A point-in-time copy of a group's policy, read atomically. -/
abbrev Permissions := Nat

/-- An `Arc<AtomicPermissions>` handle, modelled as an index into a heap of
permission stores. -/
abbrev PermRef := Nat

/-- An `Arc<RateLimiter>` handle, likewise an opaque index. -/
abbrev LimRef := Nat

/-- The heap of shared permission stores; `Arc` clones copy the index, so
clones address the same store. -/
def PermHeap : Type := PermRef → Permissions

/-- An atomic update published to the store behind `r`. -/
def PermHeap.store (h : PermHeap) (r : PermRef) (p : Permissions) : PermHeap :=
  fun r' => if r' = r then p else h r'

/-- `AtomicPermissions::load`: an atomic snapshot read. -/
def PermHeap.load (h : PermHeap) (r : PermRef) : Permissions := h r

/-- A reference to one `Cell<TraceId>`. -/
abbrev TraceRef := Nat

/-- The heap of trace cells: an allocation bound plus the cell contents.
References below `next` are the live cells. -/
structure TraceHeap where
  next : Nat
  val : Nat → TraceId

/-- Allocate a fresh cell (as `Cell::new` inside `Cell::clone` or a
constructor does), holding `t`. -/
def TraceHeap.alloc (h : TraceHeap) (t : TraceId) : TraceRef × TraceHeap :=
  (h.next, ⟨h.next + 1, fun r => if r = h.next then t else h.val r⟩)

/-- `Cell::get`. -/
def TraceHeap.get (h : TraceHeap) (r : TraceRef) : TraceId := h.val r

/-- `Cell::set`. -/
def TraceHeap.cellSet (h : TraceHeap) (r : TraceRef) (t : TraceId) : TraceHeap :=
  ⟨h.next, fun r' => if r' = r then t else h.val r'⟩

/-- `Scope` from `scope.rs`. `meta` and the two per-group handles are shared
(`Arc`); `trace_cell` addresses this instance's own `Cell<TraceId>`. -/
structure Scope where
  actor : Addr
  group : Addr
  meta : ObjectMeta
  trace_cell : TraceRef
  permissions : PermRef
  logging_limiter : LimRef
deriving DecidableEq, Repr

/-- `Scope::with_trace_id`: builds a context around an explicit token,
allocating its private trace cell. -/
def Scope.with_trace_id (h : TraceHeap) (tid : TraceId) (actor group : Addr)
    (meta : ObjectMeta) (permissions : PermRef) (logging_limiter : LimRef) :
    Scope × TraceHeap :=
  let a := h.alloc tid
  ({ actor := actor, group := group, meta := meta, trace_cell := a.1,
     permissions := permissions, logging_limiter := logging_limiter }, a.2)

/-- `Scope::new`: like `with_trace_id` with a freshly generated token. -/
def Scope.new (h : TraceHeap) (actor group : Addr) (meta : ObjectMeta)
    (perm : PermRef) (logging_limiter : LimRef) : Scope × TraceHeap :=
  Scope.with_trace_id h trace_id.generate actor group meta perm logging_limiter

/-- `Scope::trace_id`: reads this instance's cell. -/
def Scope.trace_id (h : TraceHeap) (s : Scope) : TraceId :=
  h.get s.trace_cell

/-- `Scope::set_trace_id`: overwrites this instance's cell (heap effect only;
the scope value itself is untouched). -/
def Scope.set_trace_id (h : TraceHeap) (s : Scope) (t : TraceId) : TraceHeap :=
  h.cellSet s.trace_cell t

/-- `Scope::permissions` (named with a prime because the structure field keeps
the source name): `self.permissions.load()`. -/
def Scope.permissions' (ph : PermHeap) (s : Scope) : Permissions :=
  ph.load s.permissions

/-- Derived `Clone` for `Scope`: `Cell::clone` allocates a new cell holding
the current value; the `Arc` fields are cloned by copying the handle. -/
def Scope.clone (h : TraceHeap) (s : Scope) : Scope × TraceHeap :=
  let a := h.alloc (h.get s.trace_cell)
  ({ s with trace_cell := a.1 }, a.2)

/-- The operations the owner of a scope may perform on it over its lifetime
that touch any state at all: setting the trace token, or cloning (and
handing off) a duplicate. Neither returns a modified scope for the original
instance. -/
inductive ScopeOp where
  | setTid (t : TraceId)
  | cloneDrop
deriving DecidableEq, Repr

def ScopeOp.apply (sh : Scope × TraceHeap) (op : ScopeOp) : Scope × TraceHeap :=
  match op with
  | ScopeOp.setTid t => (sh.1, Scope.set_trace_id sh.2 sh.1 t)
  | ScopeOp.cloneDrop => (sh.1, (Scope.clone sh.2 sh.1).2)

def ScopeOp.applyAll (ops : List ScopeOp) (sh : Scope × TraceHeap) :
    Scope × TraceHeap :=
  ops.foldl ScopeOp.apply sh

/-! ## Ambient registry -/

/-- The tokio task-local `SCOPE` slot: at most one installed context. -/
abbrev Registry := Option Scope

/-- Result of a free function that may abort the calling unit of work. -/
inductive Outcome (α : Type) where
  | ok (a : α)
  | panicked
deriving DecidableEq, Repr

def Outcome.isPanic {α : Type} : Outcome α → Bool
  | Outcome.ok _ => false
  | Outcome.panicked => true

namespace scope

/-- `try_with`: `SCOPE.try_with(|scope| f(scope)).ok()`. -/
def try_with {α : Type} (f : Scope → α) (reg : Registry) : Option α :=
  reg.map f

/-- `with` (primed: `with` is reserved in Lean): the panicking variant,
`try_with(f).expect(..)`. -/
def with' {α : Type} (f : Scope → α) (reg : Registry) : Outcome α :=
  match try_with f reg with
  | some r => Outcome.ok r
  | none => Outcome.panicked

/-- `expose`: `SCOPE.with(Clone::clone)`; the task-local `with` panics when
nothing is installed, and the clone allocates a fresh trace cell. -/
def expose (h : TraceHeap) (reg : Registry) : Outcome (Scope × TraceHeap) :=
  match reg with
  | some s => Outcome.ok (Scope.clone h s)
  | none => Outcome.panicked

/-- `try_expose`: `SCOPE.try_with(Clone::clone).ok()`. -/
def try_expose (h : TraceHeap) (reg : Registry) : Option (Scope × TraceHeap) :=
  try_with (Scope.clone h) reg

/-- Free `trace_id()`: `with(Scope::trace_id)`. -/
def trace_id (h : TraceHeap) (reg : Registry) : Outcome TraceId :=
  with' (Scope.trace_id h) reg

/-- Free `try_trace_id()`. -/
def try_trace_id (h : TraceHeap) (reg : Registry) : Option TraceId :=
  try_with (Scope.trace_id h) reg

/-- Free `set_trace_id(t)`: `with(|scope| scope.set_trace_id(t))`; the result
carries the updated trace heap. -/
def set_trace_id (t : TraceId) (h : TraceHeap) (reg : Registry) :
    Outcome TraceHeap :=
  with' (fun s => Scope.set_trace_id h s t) reg

/-- Free `meta()`: `with(|scope| scope.meta().clone())`. -/
def meta (reg : Registry) : Outcome ObjectMeta :=
  with' Scope.meta reg

/-- Free `try_meta()`. -/
def try_meta (reg : Registry) : Option ObjectMeta :=
  try_with Scope.meta reg

end scope

/-! ## Sample values for witnesses -/

def sampleHeap : TraceHeap := ⟨1, fun _ => 5⟩

def sampleScope : Scope :=
  { actor := ⟨2⟩, group := ⟨3⟩, meta := { group := default, key := none },
    trace_cell := 0, permissions := 4, logging_limiter := 6 }

/-! ## Theorems -/

/-- Helper: no scope operation ever replaces the scope value itself — only
the heap changes. -/
theorem ScopeOp.applyAll_fst : ∀ (ops : List ScopeOp) (sh : Scope × TraceHeap),
    (ScopeOp.applyAll ops sh).1 = sh.1 := by
  intro ops
  induction ops with
  | nil => intro sh; rfl
  | cons op rest ih =>
    intro sh
    cases op with
    | setTid t => exact ih _
    | cloneDrop => exact ih _

/-- C1: once an adapter is `Closed` — whether by explicit `close()` or by
natural exhaustion — every subsequent `poll_recv` returns `Pending` and
leaves the state `Closed`; a completion signal (`Ready none`) is never
returned again through this path. -/
theorem closed_adapter_polls_pending_forever {α σ : Type}
    (pn : PollNext α σ) (n : Nat) :
    Stream.pollN pn n (StreamState.Closed : StreamState σ)
      = ((Poll.Pending : Poll (Option (Envelope α))), StreamState.Closed) := by
  induction n with
  | zero => rfl
  | succ n ih => exact ih

/-- C2: over the finite sequence `[a, b, c]`, three successive polls yield
ready envelopes wrapping `a`, `b`, `c` in order, each a regular (non-request)
message with the reserved `NULL` sender; the fourth poll yields `Ready none`
exactly once and closes the adapter; the next poll is already `Pending`. -/
theorem finite_sequence_poll_results {α : Type} (a b c : α) :
    Stream.poll_recv listPollNext (Stream.new [a, b, c])
      = (Poll.Ready (some (Envelope.new a (MessageKind.Regular Addr.NULL))),
         StreamState.Active [b, c]) ∧
    Stream.poll_recv listPollNext (StreamState.Active [b, c])
      = (Poll.Ready (some (Envelope.new b (MessageKind.Regular Addr.NULL))),
         StreamState.Active [c]) ∧
    Stream.poll_recv listPollNext (StreamState.Active [c])
      = (Poll.Ready (some (Envelope.new c (MessageKind.Regular Addr.NULL))),
         StreamState.Active []) ∧
    Stream.poll_recv listPollNext (StreamState.Active ([] : List α))
      = (Poll.Ready none, StreamState.Closed) ∧
    Stream.poll_recv listPollNext (StreamState.Closed : StreamState (List α))
      = (Poll.Pending, StreamState.Closed) :=
  ⟨rfl, rfl, rfl, rfl, rfl⟩

/-- C3: cloning a scope yields a duplicate holding the token's current value,
and afterwards the two evolve independently: setting the duplicate's token
leaves the value read from the original unchanged, while a read on the
duplicate returns the newly set value. -/
theorem clone_trace_token_independent (h : TraceHeap) (s : Scope) (t : TraceId)
    (hl : s.trace_cell < h.next) :
    Scope.trace_id (Scope.clone h s).2 (Scope.clone h s).1
      = Scope.trace_id h s ∧
    Scope.trace_id
        (Scope.set_trace_id (Scope.clone h s).2 (Scope.clone h s).1 t) s
      = Scope.trace_id h s ∧
    Scope.trace_id
        (Scope.set_trace_id (Scope.clone h s).2 (Scope.clone h s).1 t)
        (Scope.clone h s).1 = t := by
  have hne : s.trace_cell ≠ h.next := Nat.ne_of_lt hl
  refine ⟨?_, ?_, ?_⟩ <;>
    simp [Scope.clone, Scope.trace_id, Scope.set_trace_id, TraceHeap.alloc,
      TraceHeap.get, TraceHeap.cellSet, hne]

/-- Witness: the clone-independence theorem applied at a concrete heap,
scope and token. -/
theorem clone_trace_token_independent_witness :
    sampleScope.trace_cell < sampleHeap.next ∧
    (Scope.trace_id (Scope.clone sampleHeap sampleScope).2
        (Scope.clone sampleHeap sampleScope).1
      = Scope.trace_id sampleHeap sampleScope ∧
     Scope.trace_id
        (Scope.set_trace_id (Scope.clone sampleHeap sampleScope).2
          (Scope.clone sampleHeap sampleScope).1 7) sampleScope
      = Scope.trace_id sampleHeap sampleScope ∧
     Scope.trace_id
        (Scope.set_trace_id (Scope.clone sampleHeap sampleScope).2
          (Scope.clone sampleHeap sampleScope).1 7)
        (Scope.clone sampleHeap sampleScope).1 = 7) :=
  ⟨by decide,
   clone_trace_token_independent sampleHeap sampleScope 7 (by decide)⟩

/-- C4: a clone carries the same permission-store handle as the original, so
after an update published to that shared store both the original's and the
clone's permission reads return the updated snapshot. -/
theorem clone_shares_permission_store (h : TraceHeap) (ph : PermHeap)
    (s : Scope) (p : Permissions) :
    (Scope.clone h s).1.permissions = s.permissions ∧
    Scope.permissions' (ph.store s.permissions p) s = p ∧
    Scope.permissions' (ph.store s.permissions p) (Scope.clone h s).1 = p := by
  refine ⟨rfl, ?_, ?_⟩ <;>
    simp [Scope.clone, Scope.permissions', PermHeap.store, PermHeap.load,
      TraceHeap.alloc]

/-- C5: with no context installed in the ambient registry, every
required-access free function panics, and every optional-access counterpart
returns `none`. -/
theorem ambient_absent_fatal_vs_tolerant {α : Type} (f : Scope → α)
    (h : TraceHeap) (t : TraceId) :
    (scope.expose h none).isPanic = true ∧
    (scope.with' f none).isPanic = true ∧
    (scope.trace_id h none).isPanic = true ∧
    (scope.set_trace_id t h none).isPanic = true ∧
    (scope.meta none).isPanic = true ∧
    scope.try_expose h none = none ∧
    scope.try_with f none = none ∧
    scope.try_trace_id h none = none ∧
    scope.try_meta none = none :=
  ⟨rfl, rfl, rfl, rfl, rfl, rfl, rfl, rfl, rfl⟩

/-- C6: either constructor installs exactly the given actor and group
addresses, and no sequence of scope operations ever changes them. -/
theorem actor_group_fixed_for_lifetime (h : TraceHeap) (tid : TraceId)
    (a g : Addr) (m : ObjectMeta) (p : PermRef) (l : LimRef)
    (ops : List ScopeOp) :
    (Scope.with_trace_id h tid a g m p l).1.actor = a ∧
    (Scope.with_trace_id h tid a g m p l).1.group = g ∧
    (Scope.new h a g m p l).1.actor = a ∧
    (Scope.new h a g m p l).1.group = g ∧
    (ScopeOp.applyAll ops (Scope.with_trace_id h tid a g m p l)).1.actor = a ∧
    (ScopeOp.applyAll ops (Scope.with_trace_id h tid a g m p l)).1.group = g := by
  refine ⟨rfl, rfl, rfl, rfl, ?_, ?_⟩ <;> (rw [ScopeOp.applyAll_fst]; rfl)

/-- C7: `close` on an active adapter returns `true` and leaves it `Closed`;
on an already-closed adapter it returns `false` and the state stays
`Closed`. -/
theorem close_reports_transition {σ : Type} (s : σ) :
    Stream.close (StreamState.Active s) = (true, StreamState.Closed) ∧
    Stream.close (StreamState.Closed : StreamState σ)
      = (false, StreamState.Closed) :=
  ⟨rfl, rfl⟩

/-- C8: `replace` on a closed adapter returns `none` and leaves it active
with the new sequence; on an active adapter it returns the previous sequence
and leaves it active with the new one. -/
theorem replace_returns_previous {σ : Type} (seq old : σ) :
    Stream.replace seq (StreamState.Closed : StreamState σ)
      = (none, StreamState.Active seq) ∧
    Stream.replace seq (StreamState.Active old)
      = (some old, StreamState.Active seq) :=
  ⟨rfl, rfl⟩

/-- C9: `set` always leaves the adapter active with the given sequence,
regardless of the prior state. -/
theorem set_always_active {σ : Type} (seq : σ) (st : StreamState σ) :
    Stream.set seq st = StreamState.Active seq := rfl

/-- C10: discarding `replace`'s return value, `set` and `replace` produce
exactly the same resulting adapter state. -/
theorem set_replace_state_equivalent {σ : Type} (seq : σ)
    (st : StreamState σ) :
    (Stream.replace seq st).2 = Stream.set seq st := by
  cases st <;> rfl

end Elfo
